import Mathlib

/-!
Verification of `resultite.result` (the `Result` / `Ok` / `Err` API):
a shallow embedding of `src/resultite/result.py`.

Modelling decisions:

* A Python exception object is modelled by `Exc` (class name + message);
  Python guarantees that anything caught by `except Exception as exc` is an
  `Exception` instance, so the error channel of a computation carries `Exc`.
* Arbitrary Python objects are modelled by `PyVal`; an exception object is
  embedded as `PyVal.excVal`.
* A Python call that may raise is `PyM α := Except Exc α`.
* `Ok` holds an arbitrary `PyVal`; `Err` holds an `Exc` (the constructor
  `Err.__init__` rejects every non-`Exception` payload, so a fully
  constructed `Err` always holds an exception object).  Construction through
  the checked constructor is `mkErr`, which takes the raw `PyVal` payload.
* `await f(x)` computes the same value / raises the same exception as the
  plain call `f(x)`, so both the sync and async combinators consume a
  function `PyVal → PyM _`; the async method bodies are transliterated
  separately from their own source lines.
* Python `==` on the payloads is modelled by decidable equality on
  `PyVal` / `Exc`.
-/

namespace Resultite

/-- A Python exception object: its class name and its message. -/
structure Exc where
  cls : String
  msg : String
deriving DecidableEq, Repr

/-- A Python object, as far as the payloads of `Ok` / `Err` are concerned. -/
inductive PyVal where
  | int : Int → PyVal
  | str : String → PyVal
  | excVal : Exc → PyVal
  | none : PyVal
deriving DecidableEq, Repr

/-- `isinstance(x, Exception)` on a `PyVal`. -/
def PyVal.isException : PyVal → Bool
  | .excVal _ => true
  | _ => false

/-- A Python computation that either returns normally or raises an
exception. -/
abbrev PyM (α : Type) := Except Exc α

/-- The two-variant container from `result.py`: `Ok(value)` wraps a
successful value, `Err(error)` wraps an `Exception` instance. -/
inductive Result where
  | Ok : PyVal → Result
  | Err : Exc → Result
deriving DecidableEq, Repr

/-- The exception raised by `Err.__init__` on a non-`Exception` payload. -/
def errTypeError : Exc :=
  ⟨"TypeError", "Err expects an Exception instance."⟩

/-- `Err.__init__`: `if not isinstance(error, Exception): raise TypeError(...)`,
otherwise store the payload unchanged. -/
def mkErr (error : PyVal) : PyM Result :=
  match error with
  | .excVal e => .ok (.Err e)
  | _ => .error errTypeError

/-- The `_error` attribute of an `Err` instance, as a Python object
(`none` on an `Ok`, which has no such slot). -/
def Result.errValue : Result → Option PyVal
  | .Err e => some (.excVal e)
  | .Ok _ => Option.none

/-- `Result.is_ok`: `isinstance(self, Ok)`. -/
def Result.is_ok : Result → Bool
  | .Ok _ => true
  | .Err _ => false

/-- `Result.is_err`: `isinstance(self, Err)`. -/
def Result.is_err : Result → Bool
  | .Ok _ => false
  | .Err _ => true

/-- `Ok.unwrap` returns the held value; `Err.unwrap` raises the held
error. -/
def Result.unwrap : Result → PyM PyVal
  | .Ok v => .ok v
  | .Err e => .error e

/-- `Ok.unwrap_or` ignores the default; `Err.unwrap_or` returns it. -/
def Result.unwrap_or : Result → PyVal → PyVal
  | .Ok v, _ => v
  | .Err _, d => d

/-- `Ok.map`: `try: return Ok(func(self._value)) except Exception as exc:
return Err(exc)`; `Err.map`: `return Err(self._error)`. -/
def Result.map : Result → (PyVal → PyM PyVal) → PyM Result
  | .Ok v, func =>
    match func v with
    | .ok u => .ok (.Ok u)
    | .error exc => mkErr (.excVal exc)
  | .Err e, _ => mkErr (.excVal e)

/-- `Ok.map_err`: `return Ok(self._value)`; `Err.map_err`: `try: return
Err(func(self._error)) except Exception as exc: return Err(exc)` — the
`try` block covers both the call to `func` and the `Err` construction. -/
def Result.map_err : Result → (PyVal → PyM PyVal) → PyM Result
  | .Ok v, _ => .ok (.Ok v)
  | .Err e, func =>
    match (func (.excVal e) >>= mkErr : PyM Result) with
    | .ok r => .ok r
    | .error exc => mkErr (.excVal exc)

/-- `Ok.and_then`: `try: return func(self._value) except Exception as exc:
return Err(exc)`; `Err.and_then`: `return Err(self._error)`. -/
def Result.and_then : Result → (PyVal → PyM Result) → PyM Result
  | .Ok v, func =>
    match func v with
    | .ok r => .ok r
    | .error exc => mkErr (.excVal exc)
  | .Err e, _ => mkErr (.excVal e)

/-- `Ok.map_async`: `try: return Ok(await func(self._value)) except ...:
return Err(exc)`; `Err.map_async`: `return Err(self._error)`. -/
def Result.map_async : Result → (PyVal → PyM PyVal) → PyM Result
  | .Ok v, func =>
    match func v with
    | .ok u => .ok (.Ok u)
    | .error exc => mkErr (.excVal exc)
  | .Err e, _ => mkErr (.excVal e)

/-- `Ok.and_then_async`: `try: return await func(self._value) except ...:
return Err(exc)`; `Err.and_then_async`: `return Err(self._error)`. -/
def Result.and_then_async : Result → (PyVal → PyM Result) → PyM Result
  | .Ok v, func =>
    match func v with
    | .ok r => .ok r
    | .error exc => mkErr (.excVal exc)
  | .Err e, _ => mkErr (.excVal e)

/-- `Ok.__eq__`: `isinstance(other, Ok) and self._value == other._value`. -/
def okEq (v : PyVal) : Result → Bool
  | .Ok w => v == w
  | .Err _ => false

/-- `Err.__eq__`: `isinstance(other, Err) and self._error == other._error`. -/
def errEq (e : Exc) : Result → Bool
  | .Err f => e == f
  | .Ok _ => false

/-- Dispatch of `==` on the left operand's runtime class. -/
def Result.beq : Result → Result → Bool
  | .Ok v, other => okEq v other
  | .Err e, other => errEq e other

/-- `Result.__ne__`: `not self.__eq__(other)`. -/
def Result.bne (a b : Result) : Bool := !(Result.beq a b)

/-- A Python function together with the introspection metadata that
`resultify` copies onto its wrapper. -/
structure PyFunc (α : Type) where
  name : String
  qualname : String
  doc : Option String
  call : α → PyM PyVal

/-- A function returning a `Result`, with the same metadata slots. -/
structure PyResFunc (α : Type) where
  name : String
  qualname : String
  doc : Option String
  call : α → PyM Result

/-- `resultify(func)`: the wrapper runs `try: return Ok(func(*args))
except Exception as exc: return Err(exc)` and carries over `__name__`,
`__qualname__` and `__doc__`. -/
def resultify (func : PyFunc α) : PyResFunc α where
  name := func.name
  qualname := func.qualname
  doc := func.doc
  call := fun args =>
    match func.call args with
    | .ok v => .ok (.Ok v)
    | .error exc => mkErr (.excVal exc)

/-- `async_resultify(func)`: the wrapper runs `try: return Ok(await
func(*args)) except Exception as exc: return Err(exc)` and carries over the
same metadata. -/
def async_resultify (func : PyFunc α) : PyResFunc α where
  name := func.name
  qualname := func.qualname
  doc := func.doc
  call := fun args =>
    match func.call args with
    | .ok v => .ok (.Ok v)
    | .error exc => mkErr (.excVal exc)

/-! Concrete Python values and functions used to instantiate the theorems,
mirroring the helpers of `tests/test_result_api.py`. -/

/-- The exception `ValueError("boom")` raised by the test helper `fail`. -/
def boom : Exc := ⟨"ValueError", "boom"⟩

/-- The helper `inc`: `lambda x: x + 1` on ints (a `TypeError` otherwise, as
Python addition would raise). -/
def pyInc : PyVal → PyM PyVal
  | .int n => .ok (.int (n + 1))
  | _ => .error ⟨"TypeError", "unsupported operand"⟩

/-- The helper `fail`: always raises `ValueError("boom")`. -/
def pyFail : PyVal → PyM PyVal := fun _ => .error boom

/-- The chaining helper `lambda x: Err(ValueError("fail"))`. -/
def pyToErr : PyVal → PyM Result := fun _ => .ok (.Err ⟨"ValueError", "fail"⟩)

/-- An error mapper wrapping any error into `RuntimeError("wrapped")`. -/
def pyWrap : PyVal → PyM PyVal := fun _ => .ok (.excVal ⟨"RuntimeError", "wrapped"⟩)

/-- An error mapper that returns the non-exception value `0`. -/
def pyToZero : PyVal → PyM PyVal := fun _ => .ok (.int 0)

/-! Theorems settling the claims. -/

/-- C1: for every value `v` and function `f`, if `f v` returns normally with
`u` then `Ok(v).map(f) = Ok(u)`, and if `f v` raises `e` then
`Ok(v).map(f) = Err(e)` — the exception is captured, not propagated. -/
theorem ok_map_spec (v : PyVal) (f : PyVal → PyM PyVal) :
    (∀ u, f v = .ok u → Result.map (.Ok v) f = .ok (.Ok u)) ∧
    (∀ e, f v = .error e → Result.map (.Ok v) f = .ok (.Err e)) := by
  refine ⟨fun u h => ?_, fun e h => ?_⟩ <;> simp [Result.map, h, mkErr]

/-- C1 witness: `Ok(3).map(inc) = Ok(4)` and `Ok(3).map(fail) =
Err(ValueError("boom"))`. -/
theorem ok_map_spec_witness :
    Result.map (.Ok (.int 3)) pyInc = .ok (.Ok (.int 4)) ∧
    Result.map (.Ok (.int 3)) pyFail = .ok (.Err boom) :=
  ⟨(ok_map_spec (.int 3) pyInc).1 (.int 4) rfl,
   (ok_map_spec (.int 3) pyFail).2 boom rfl⟩

/-- C2: `Ok(v)` answers the queries as a success and yields `v` from both
extractors; `Err(e)` answers as a failure, `unwrap` raises exactly `e`, and
`unwrap_or d` yields `d`. -/
theorem query_extract_spec (v d : PyVal) (e : Exc) :
    Result.is_ok (.Ok v) = true ∧ Result.is_err (.Ok v) = false ∧
    Result.unwrap (.Ok v) = .ok v ∧ Result.unwrap_or (.Ok v) d = v ∧
    Result.is_err (.Err e) = true ∧ Result.is_ok (.Err e) = false ∧
    Result.unwrap (.Err e) = .error e ∧ Result.unwrap_or (.Err e) d = d := by
  simp [Result.is_ok, Result.is_err, Result.unwrap, Result.unwrap_or]

/-- C3: on `Err(e)`, each of `map`, `and_then`, `map_async` and
`and_then_async` returns `Err(e)` unchanged; that the supplied function is
never invoked is captured extensionally — the output does not depend on it. -/
theorem err_noop_spec (e : Exc) (f g : PyVal → PyM PyVal)
    (h k : PyVal → PyM Result) :
    Result.map (.Err e) f = .ok (.Err e) ∧
    Result.and_then (.Err e) h = .ok (.Err e) ∧
    Result.map_async (.Err e) f = .ok (.Err e) ∧
    Result.and_then_async (.Err e) h = .ok (.Err e) ∧
    Result.map (.Err e) f = Result.map (.Err e) g ∧
    Result.and_then (.Err e) h = Result.and_then (.Err e) k ∧
    Result.map_async (.Err e) f = Result.map_async (.Err e) g ∧
    Result.and_then_async (.Err e) h = Result.and_then_async (.Err e) k := by
  simp [Result.map, Result.and_then, Result.map_async, Result.and_then_async,
    mkErr]

/-- C4: `Ok(v).map_err(f)` is `Ok(v)` with `f` never invoked (output is
independent of `f`); `Err(e).map_err(f)` is `Err(f(e))` when `f` returns the
exception object `e2` normally, and `Err(e2)` when `f` itself raises `e2`. -/
theorem map_err_spec (v : PyVal) (e : Exc) (f g : PyVal → PyM PyVal) :
    Result.map_err (.Ok v) f = .ok (.Ok v) ∧
    Result.map_err (.Ok v) f = Result.map_err (.Ok v) g ∧
    (∀ e2 : Exc, f (.excVal e) = .ok (.excVal e2) →
      Result.map_err (.Err e) f = .ok (.Err e2)) ∧
    (∀ e2 : Exc, f (.excVal e) = .error e2 →
      Result.map_err (.Err e) f = .ok (.Err e2)) := by
  refine ⟨rfl, rfl, fun e2 h => ?_, fun e2 h => ?_⟩ <;>
    simp [Result.map_err, h, mkErr, Bind.bind, Except.bind]

/-- C4 witness: `Ok(3).map_err(wrap) = Ok(3)`;
`Err(boom).map_err(wrap) = Err(RuntimeError("wrapped"))`;
`Err(boom).map_err(fail) = Err(ValueError("boom"))`. -/
theorem map_err_spec_witness :
    Result.map_err (.Ok (.int 3)) pyWrap = .ok (.Ok (.int 3)) ∧
    Result.map_err (.Err boom) pyWrap = .ok (.Err ⟨"RuntimeError", "wrapped"⟩) ∧
    Result.map_err (.Err boom) pyFail = .ok (.Err boom) :=
  ⟨(map_err_spec (.int 3) boom pyWrap pyWrap).1,
   (map_err_spec (.int 3) boom pyWrap pyWrap).2.2.1 ⟨"RuntimeError", "wrapped"⟩ rfl,
   (map_err_spec (.int 3) boom pyFail pyFail).2.2.2 boom rfl⟩

/-- C5: `Ok(v).and_then(f)` returns `f v` directly when `f` returns
normally, and captures the exception as `Err` when `f` raises. -/
theorem ok_and_then_spec (v : PyVal) (f : PyVal → PyM Result) :
    (∀ r, f v = .ok r → Result.and_then (.Ok v) f = .ok r) ∧
    (∀ e, f v = .error e → Result.and_then (.Ok v) f = .ok (.Err e)) := by
  refine ⟨fun r h => ?_, fun e h => ?_⟩ <;> simp [Result.and_then, h, mkErr]

/-- C5 witness: `Ok(2).and_then(lambda x: Err(ValueError("fail")))` yields
that `Err`; chaining a raising function captures `ValueError("boom")`. -/
theorem ok_and_then_spec_witness :
    Result.and_then (.Ok (.int 2)) pyToErr = .ok (.Err ⟨"ValueError", "fail"⟩) ∧
    Result.and_then (.Ok (.int 2)) (fun _ => .error boom) = .ok (.Err boom) :=
  ⟨(ok_and_then_spec (.int 2) pyToErr).1 (.Err ⟨"ValueError", "fail"⟩) rfl,
   (ok_and_then_spec (.int 2) (fun _ => .error boom)).2 boom rfl⟩

/-- C6: constructing `Err` from a payload that is not an exception raises
`TypeError` immediately; from an exception payload it succeeds and the
stored `_error` is that payload unchanged. -/
theorem err_init_spec (x : PyVal) :
    (x.isException = false → mkErr x = .error errTypeError) ∧
    (x.isException = true →
      ∃ r, mkErr x = .ok r ∧ Result.is_err r = true ∧
        Result.errValue r = some x) := by
  cases x <;>
    simp [PyVal.isException, mkErr, Result.is_err, Result.errValue]

/-- C6 witness: `Err("nope")` raises `TypeError`, while `Err(boom)` stores
`boom` unchanged. -/
theorem err_init_spec_witness :
    mkErr (.str "nope") = .error errTypeError ∧
    (∃ r, mkErr (.excVal boom) = .ok r ∧ Result.is_err r = true ∧
      Result.errValue r = some (.excVal boom)) :=
  ⟨(err_init_spec (.str "nope")).1 rfl, (err_init_spec (.excVal boom)).2 rfl⟩

/-- C7: two results compare equal exactly when they are the same variant
with equal payload; an `Ok` and an `Err` are never equal in either order;
`!=` is the negation of `==`. -/
theorem result_eq_spec (a b : Result) :
    (Result.beq a b = true ↔ a = b) ∧
    (∀ v e, Result.beq (.Ok v) (.Err e) = false ∧
      Result.beq (.Err e) (.Ok v) = false) ∧
    Result.bne a b = !(Result.beq a b) := by
  refine ⟨?_, fun v e => ⟨rfl, rfl⟩, rfl⟩
  cases a <;> cases b <;> simp [Result.beq, okEq, errEq]

/-- C7 witness: `Ok(1) == Ok(1)`, `Ok(1) != Ok(2)`, and `Ok(1)` never
equals an `Err`. -/
theorem result_eq_spec_witness :
    Result.beq (.Ok (.int 1)) (.Ok (.int 1)) = true ∧
    Result.bne (.Ok (.int 1)) (.Ok (.int 2)) = true ∧
    Result.beq (.Ok (.int 1)) (.Err boom) = false :=
  ⟨(result_eq_spec (.Ok (.int 1)) (.Ok (.int 1))).1.mpr rfl,
   by
    have h := (result_eq_spec (.Ok (.int 1)) (.Ok (.int 2))).2.2
    simp [h, Result.beq, okEq],
   ((result_eq_spec (.Ok (.int 1)) (.Err boom)).2.1 (.int 1) boom).1⟩

/-- C8: for pointwise-equivalent functions (the suspension-capable one
computing the same value or raising the same exception as the blocking
one), `map_async` agrees with `map` and `and_then_async` with `and_then`
on every result. -/
theorem async_sync_equiv (r : Result) (f f' : PyVal → PyM PyVal)
    (g g' : PyVal → PyM Result)
    (hf : ∀ x, f' x = f x) (hg : ∀ x, g' x = g x) :
    Result.map_async r f' = Result.map r f ∧
    Result.and_then_async r g' = Result.and_then r g := by
  cases r <;>
    simp [Result.map, Result.map_async, Result.and_then,
      Result.and_then_async, hf, hg]

/-- C8 witness: `Ok(3).map_async(async_inc) = Ok(3).map(inc) = Ok(4)` and
the async chaining agrees likewise. -/
theorem async_sync_equiv_witness :
    Result.map_async (.Ok (.int 3)) pyInc = Result.map (.Ok (.int 3)) pyInc ∧
    Result.and_then_async (.Ok (.int 3)) pyToErr =
      Result.and_then (.Ok (.int 3)) pyToErr :=
  async_sync_equiv (.Ok (.int 3)) pyInc pyInc pyToErr pyToErr
    (fun _ => rfl) (fun _ => rfl)

/-- C9: the wrapper returned by `resultify(fn)` returns `Ok(fn(args))`
when `fn` returns normally and `Err(e)` when `fn` raises `e`, and carries
the original name, qualified name and documentation; `async_resultify`
behaves identically. -/
theorem resultify_spec {α : Type} (func : PyFunc α) (args : α) :
    (∀ v, func.call args = .ok v →
      (resultify func).call args = .ok (.Ok v)) ∧
    (∀ e, func.call args = .error e →
      (resultify func).call args = .ok (.Err e)) ∧
    (resultify func).name = func.name ∧
    (resultify func).qualname = func.qualname ∧
    (resultify func).doc = func.doc ∧
    (∀ v, func.call args = .ok v →
      (async_resultify func).call args = .ok (.Ok v)) ∧
    (∀ e, func.call args = .error e →
      (async_resultify func).call args = .ok (.Err e)) ∧
    (async_resultify func).name = func.name ∧
    (async_resultify func).qualname = func.qualname ∧
    (async_resultify func).doc = func.doc := by
  refine ⟨fun u h => ?_, fun e h => ?_, rfl, rfl, rfl,
    fun u h => ?_, fun e h => ?_, rfl, rfl, rfl⟩ <;>
    simp [resultify, async_resultify, h, mkErr]

/-- C9 witness: wrapping `inc` yields `Ok(4)` on `3`, wrapping `fail`
yields `Err(ValueError("boom"))`, and the metadata survives. -/
theorem resultify_spec_witness :
    (resultify ⟨"inc", "inc", Option.none, pyInc⟩).call (.int 3) =
      .ok (.Ok (.int 4)) ∧
    (resultify ⟨"fail", "fail", Option.none, pyFail⟩).call (.int 3) =
      .ok (.Err boom) ∧
    (resultify ⟨"inc", "inc", Option.none, pyInc⟩).name = "inc" ∧
    (async_resultify ⟨"fail", "fail", Option.none, pyFail⟩).call (.int 3) =
      .ok (.Err boom) :=
  ⟨(resultify_spec ⟨"inc", "inc", Option.none, pyInc⟩ (.int 3)).1
      (.int 4) rfl,
   (resultify_spec ⟨"fail", "fail", Option.none, pyFail⟩ (.int 3)).2.1
      boom rfl,
   (resultify_spec ⟨"inc", "inc", Option.none, pyInc⟩ (.int 3)).2.2.1,
   (resultify_spec ⟨"fail", "fail", Option.none, pyFail⟩
      (.int 3)).2.2.2.2.2.2.1 boom rfl⟩

/-- C10: when the error mapper returns normally but with a payload that is
not an exception, `Err(e).map_err(f)` does not raise: the `TypeError` from
the `Err` constructor is caught by the same handler, so the call returns
`Err(TypeError(...))`. -/
theorem map_err_nonexc_spec (e : Exc) (f : PyVal → PyM PyVal) (u : PyVal)
    (hret : f (.excVal e) = .ok u) (hnot : u.isException = false) :
    Result.map_err (.Err e) f = .ok (.Err errTypeError) := by
  cases u <;> simp [PyVal.isException] at hnot <;>
    simp [Result.map_err, hret, mkErr, Bind.bind, Except.bind]

/-- C10 witness: `Err(boom).map_err(lambda e: 0)` returns
`Err(TypeError("Err expects an Exception instance."))` instead of
raising. -/
theorem map_err_nonexc_spec_witness :
    Result.map_err (.Err boom) pyToZero = .ok (.Err errTypeError) :=
  map_err_nonexc_spec boom pyToZero (.int 0) rfl rfl

end Resultite
